import Mathlib

/-!
Verification development for the C FFI binding layer of a tokenizers library
(`bindings/c/src`).  The binding functions are shallowly embedded: C pointers
become `Option`-typed values (`none` = NULL), the bytes behind a string
pointer are abstracted by their UTF-8 decodability, the thread-local
`LAST_ERROR` cell is threaded explicitly, and a call that would dereference a
null pointer (undefined behavior) is modelled as having no defined result.
The BPE engine itself lives in an external crate; where a claim needs its
behavior it is modelled from the specification (see the doc comments marked
`Modelled from the spec:`).
-/

namespace CTok

end CTok

deriving instance DecidableEq for Except

namespace CTok

/-- Abstraction of the bytes behind a non-null C string pointer: either they
decode as UTF-8 to a string, or they are invalid UTF-8 (carrying the display
text of the decoding error, which the bindings interpolate into messages). -/
inductive CStrData
  | utf8 (s : String)
  | notUtf8 (e : String)
deriving DecidableEq

/-- A `*const c_char` argument: `none` is NULL. -/
abbrev CStrPtr := Option CStrData

/-- `CStr::to_str`: succeeds exactly on valid UTF-8. -/
def CStrData.toStr : CStrData → Option String
  | .utf8 s => some s
  | .notUtf8 _ => none

/-- Display text of the UTF-8 decoding error of this C string (empty when the
string is in fact valid; never consulted in that case). -/
def CStrData.errMsg : CStrData → String
  | .utf8 _ => ""
  | .notUtf8 e => e

/-- Does the string contain a NUL character?  `CString::new` fails exactly
then. -/
def hasNulChar (s : String) : Bool := s.toList.any (fun c => c.toNat = 0)

/-- The thread-local `LAST_ERROR` cell of lib.rs: `some m` when a message
CString is stored, `none` when the cell is empty. -/
abbrev ErrSt := Option String

/-- `set_last_error`: the cell receives `CString::new(message).ok()`, so a
message with an interior NUL byte empties the cell. -/
def setLastError (msg : String) : ErrSt := if hasNulChar msg then none else some msg

/-- `clear_last_error`. -/
def clearLastError : ErrSt := none

/-- `tokenizers_get_last_error` (lib.rs lines 188-194): a pointer to the
stored message, NULL when the cell is empty. -/
def tokenizers_get_last_error (st : ErrSt) : Option String := st

/-! ### Rust string primitives used by the merges parser -/

/-- The Unicode `White_Space` characters: the set recognized by Rust
`char::is_whitespace`, used by `str::trim` and `str::split_whitespace`. -/
def isRustWs (c : Char) : Bool :=
  decide ((0x09 ≤ c.toNat ∧ c.toNat ≤ 0x0D) ∨ c.toNat = 0x20 ∨ c.toNat = 0x85 ∨
    c.toNat = 0xA0 ∨ c.toNat = 0x1680 ∨ (0x2000 ≤ c.toNat ∧ c.toNat ≤ 0x200A) ∨
    c.toNat = 0x2028 ∨ c.toNat = 0x2029 ∨ c.toNat = 0x202F ∨ c.toNat = 0x205F ∨
    c.toNat = 0x3000)

/-- Undo the reversed accumulator of `rustLinesAux`, stripping one carriage
return that immediately precedes the line feed (Rust `str::lines` treats
`\r\n` as a line terminator). -/
def finishLineRev (acc : List Char) : List Char :=
  match acc with
  | '\r' :: t => t.reverse
  | _ => acc.reverse

/-- Worker for `rustLines`; `acc` holds the current line reversed. -/
def rustLinesAux : List Char → List Char → List (List Char)
  | [], acc => if acc.isEmpty then [] else [acc.reverse]
  | c :: rest, acc =>
    if c = '\n' then finishLineRev acc :: rustLinesAux rest []
    else rustLinesAux rest (c :: acc)

/-- Rust `str::lines`: split at `\n` or `\r\n`; a final line terminator does
not produce a trailing empty line; a final `\r` not followed by `\n` is kept. -/
def rustLines (s : String) : List (List Char) := rustLinesAux s.toList []

/-- Rust `str::trim`: drop leading and trailing Unicode whitespace. -/
def rustTrim (l : List Char) : List Char :=
  ((l.dropWhile isRustWs).reverse.dropWhile isRustWs).reverse

/-- Worker for `splitWs`; `acc` holds the current token reversed. -/
def splitWsAux : List Char → List Char → List (List Char)
  | [], acc => if acc.isEmpty then [] else [acc.reverse]
  | c :: rest, acc =>
    if isRustWs c then
      if acc.isEmpty then splitWsAux rest [] else acc.reverse :: splitWsAux rest []
    else splitWsAux rest (c :: acc)

/-- Rust `str::split_whitespace`: the maximal nonempty runs of
non-whitespace characters. -/
def splitWs (l : List Char) : List (List Char) := splitWsAux l []

/-! ### The merges parser of `tokenizers_bpe_create` (bpe.rs lines 69-84) -/

/-- A merges line is skipped when, after trimming, it is empty or starts
with `#`. -/
def lineIgnored (l : List Char) : Bool :=
  (rustTrim l).isEmpty || (rustTrim l).head? == some '#'

/-- The whitespace-separated parts of a trimmed merges line. -/
def lineParts (l : List Char) : List (List Char) := splitWs (rustTrim l)

/-- The parsing loop over the enumerated lines; `i` is the 0-based index
from `enumerate`.  An error carries the 1-based line number and the number
of parts found on the offending line, exactly the data interpolated into
the status `-4` message. -/
def parseMergesGo : Nat → List (List Char) → List (String × String) →
    Except (Nat × Nat) (List (String × String))
  | _, [], acc => .ok acc.reverse
  | i, l :: rest, acc =>
    if lineIgnored l then parseMergesGo (i + 1) rest acc
    else
      match lineParts l with
      | [a, b] => parseMergesGo (i + 1) rest ((⟨a⟩, ⟨b⟩) :: acc)
      | parts => .error (i + 1, parts.length)

/-- The merges parsing performed by `tokenizers_bpe_create` on the decoded
merges string. -/
def parseMerges (s : String) : Except (Nat × Nat) (List (String × String)) :=
  parseMergesGo 0 (rustLines s) []

/-- Specification view: the first line (0-based index among `str::lines`)
that is neither ignored nor made of exactly two whitespace-separated
tokens, together with its 1-based number and its part count. -/
def mergesFirstBad (s : String) : Option (Nat × Nat) :=
  ((rustLines s).enum.find?
      (fun p => !lineIgnored p.2 && (lineParts p.2).length != 2)).map
    (fun p => (p.1 + 1, (lineParts p.2).length))

/-- Specification view: the merge pairs collected from the non-ignored
lines, in their original order. -/
def mergesPairs (s : String) : List (String × String) :=
  ((rustLines s).filter (fun l => !lineIgnored l)).map
    (fun l => (⟨(lineParts l).getD 0 []⟩, ⟨(lineParts l).getD 1 []⟩))

/-! ### The BPE builder assembled by `tokenizers_bpe_create` -/

/-- The configuration accumulated through `BPE::builder()` chained calls.
Field names follow the builder options of bpe.rs (the source's
`continuing_subword_prefix` and `end_of_word_suffix` are shortened to
`cswPre` and `eowSuf`).  `dropout` is an `f32`, modelled as a rational. -/
structure BpeBuilder where
  vocab : List (String × Nat)
  merges : List (String × String)
  cacheCapacity : Option Nat := none
  dropout : Option Rat := none
  unkToken : Option String := none
  cswPre : Option String := none
  eowSuf : Option String := none
  fuseUnk : Bool := false
  byteFallback : Bool := false
deriving DecidableEq

/-- The built engine.  The engine implementation is an external crate; the
model is identified with its validated configuration. -/
structure BPEModel where
  config : BpeBuilder
deriving DecidableEq

/-- The `if !ptr.is_null()` plus `if let Ok(s)` shape shared by the three
optional string options of bpe.rs lines 100-119: the update fires only for
a non-null, valid-UTF-8 pointer; otherwise the builder passes through
untouched (invalid UTF-8 is silently dropped). -/
def withOptStr (upd : BpeBuilder → String → BpeBuilder) (p : CStrPtr)
    (b : BpeBuilder) : BpeBuilder :=
  match p with
  | some d =>
    match d.toStr with
    | some s => upd b s
    | none => b
  | none => b

/-- The builder-assembly steps of `tokenizers_bpe_create` (bpe.rs lines
86-119): cache capacity only when positive, dropout only when inside
[0.0, 1.0], and each optional string only when non-null and valid UTF-8. -/
def assembleBuilder (vocab : List (String × Nat)) (merges : List (String × String))
    (cacheCapacity : Nat) (dropout : Rat) (unkToken cswPre eowSuf : CStrPtr)
    (fuseUnk byteFallback : Bool) : BpeBuilder :=
  let b : BpeBuilder :=
    { vocab := vocab, merges := merges,
      fuseUnk := fuseUnk, byteFallback := byteFallback }
  let b := if 0 < cacheCapacity then { b with cacheCapacity := some cacheCapacity } else b
  let b := if 0 ≤ dropout ∧ dropout ≤ 1 then { b with dropout := some dropout } else b
  let b := withOptStr (fun b s => { b with unkToken := some s }) unkToken b
  let b := withOptStr (fun b s => { b with cswPre := some s }) cswPre b
  withOptStr (fun b s => { b with eowSuf := some s }) eowSuf b

/-- What `tokenizers_bpe_create` leaves behind: the returned model pointer
(`none` = null), the value written through a non-null `status` out-pointer,
and the thread-local error cell after the call. -/
structure CreateResult where
  ret : Option BPEModel
  status : Int
  err : ErrSt
deriving DecidableEq

/-- Message of status `-1` of `tokenizers_bpe_create`. -/
def invalidVocabStrMsg (e : String) : String := "Invalid vocab JSON string: " ++ e

/-- Message of status `-2` of `tokenizers_bpe_create`. -/
def vocabParseFailMsg (e : String) : String := "Failed to parse vocab JSON: " ++ e

/-- Message of status `-3` of `tokenizers_bpe_create`. -/
def invalidMergesStrMsg (e : String) : String := "Invalid merges string: " ++ e

/-- Message of status `-4` of `tokenizers_bpe_create`. -/
def invalidMergeLineMsg (lineNo found : Nat) : String :=
  "Invalid merge at line " ++ toString lineNo ++ ": expected 2 tokens, found " ++
    toString found

/-- Message of status `-5` of `tokenizers_bpe_create`. -/
def buildFailMsg (e : String) : String := "Failed to build BPE model: " ++ e

/-- The tail of `tokenizers_bpe_create` after the vocabulary was parsed and
the merges pointer dereferenced (bpe.rs lines 59-132): decode the merges
string, run the line parser, assemble the builder and call the external
`build` (a parameter: it lives in the external crate).  Note the success
path does not clear the thread-local error cell. -/
def bpeCreateFromVocab (build : BpeBuilder → Except String BPEModel)
    (vocab : List (String × Nat)) (md : CStrData) (cacheCapacity : Nat)
    (dropout : Rat) (unkToken cswPre eowSuf : CStrPtr) (fuseUnk byteFallback : Bool)
    (st : ErrSt) : CreateResult :=
  match md.toStr with
  | none => ⟨none, -3, setLastError (invalidMergesStrMsg md.errMsg)⟩
  | some ms =>
    match parseMerges ms with
    | .error (n, k) => ⟨none, -4, setLastError (invalidMergeLineMsg n k)⟩
    | .ok merges =>
      let b := assembleBuilder vocab merges cacheCapacity dropout unkToken cswPre
        eowSuf fuseUnk byteFallback
      match build b with
      | .ok m => ⟨some m, 0, st⟩
      | .error e => ⟨none, -5, setLastError (buildFailMsg e)⟩

/-- `tokenizers_bpe_create` (bpe.rs lines 26-132).  `parseVocab` is the
external `serde_json::from_str::<Vocab>`; `build` is the external
`BpeBuilder::build`.  The function dereferences `vocab_json` immediately and
`merges_str` after the vocabulary stages, with no null check on either:
a null pointer there is undefined behavior, modelled as `none` (no defined
result).  The optional `unk_token`, prefix and suffix pointers are
null-checked. -/
def tokenizers_bpe_create (parseVocab : String → Except String (List (String × Nat)))
    (build : BpeBuilder → Except String BPEModel)
    (vocabJson mergesStr : CStrPtr) (cacheCapacity : Nat) (dropout : Rat)
    (unkToken cswPre eowSuf : CStrPtr) (fuseUnk byteFallback : Bool)
    (st : ErrSt) : Option CreateResult := do
  let vj ← vocabJson
  match vj.toStr with
  | none => some ⟨none, -1, setLastError (invalidVocabStrMsg vj.errMsg)⟩
  | some vs =>
    match parseVocab vs with
    | .error e => some ⟨none, -2, setLastError (vocabParseFailMsg e)⟩
    | .ok vocab => do
      let md ← mergesStr
      some (bpeCreateFromVocab build vocab md cacheCapacity dropout unkToken
        cswPre eowSuf fuseUnk byteFallback st)

/-! ### `tokenizers_create` and the Unigram constructor -/

/-- Modelled from the spec: the state behind `CTokenizer` (the external
`tokenizers::Tokenizer`), reduced to the BPE engine core that the spec
describes (spec §2): the built model. -/
structure CTokenizer where
  model : BPEModel
deriving DecidableEq

/-- What `tokenizers_create` leaves behind. -/
structure TokCreateResult where
  ret : Option CTokenizer
  status : Int
  err : ErrSt
deriving DecidableEq

/-- `tokenizers_create` (lib.rs lines 196-223); `fromBytes` is the external
`Tokenizer::from_bytes`.  The null check yields status `1` (a positive
code) before any dereference. -/
def tokenizers_create (fromBytes : String → Except String CTokenizer)
    (json : CStrPtr) (_st : ErrSt) : TokCreateResult :=
  match json with
  | none => ⟨none, 1, setLastError "tokenizers_create received null pointer"⟩
  | some d =>
    match d.toStr with
    | none => ⟨none, 3, setLastError "tokenizers_create could not decode JSON string"⟩
    | some content =>
      match fromBytes content with
      | .ok tk => ⟨some tk, 0, clearLastError⟩
      | .error e => ⟨none, 2, setLastError ("tokenizers_create failed: " ++ e)⟩

/-- A `VocabItem` of unigram.rs: the token pointer and its `f64` score
(scores modelled as rationals). -/
structure VocabItem where
  token : CStrPtr
  score : Rat
deriving DecidableEq

/-- The external `tokenizers::models::unigram::Unigram`, identified with the
arguments of its external constructor `Unigram::from`. -/
structure UnigramModel where
  vocab : List (String × Rat)
  unkId : Option Nat
  byteFallback : Bool
deriving DecidableEq

/-- What `tokenizers_unigram_new` leaves behind; `status = none` when the
status out-pointer was null and hence never written. -/
structure UnigramResult where
  ret : Option UnigramModel
  status : Option Int
  err : ErrSt
deriving DecidableEq

/-- The conversion loop of unigram.rs lines 65-82: a null token pointer
yields status `-4`, invalid UTF-8 yields `-5`. -/
def readVocabItems : List VocabItem → Except UnigramResult (List (String × Rat))
  | [] => .ok []
  | item :: rest =>
    match item.token with
    | none => .error ⟨none, some (-4), setLastError "Vocab item token cannot be null"⟩
    | some d =>
      match d.toStr with
      | none => .error ⟨none, some (-5), setLastError "Invalid UTF-8 in vocab item token"⟩
      | some s => (readVocabItems rest).map (fun t => (s, item.score) :: t)

/-- `tokenizers_unigram_new` (unigram.rs lines 32-103).  `vocab` is `none`
for a null array pointer, otherwise the `vocab_len` items read from it;
`unkId` is `none` for a null `unk_id` pointer.  `unigramFrom` is the
external `Unigram::from`.  Every return path overwrites the initial `-1`
status, and the success path does not clear the error cell. -/
def tokenizers_unigram_new
    (unigramFrom : List (String × Rat) → Option Nat → Bool → Except String UnigramModel)
    (vocab : Option (List VocabItem)) (unkId : Option Nat) (byteFallback : Bool)
    (statusNull : Bool) (st : ErrSt) : UnigramResult :=
  if statusNull then ⟨none, none, st⟩
  else
    match vocab with
    | none => ⟨none, some (-2), setLastError "Vocab cannot be null"⟩
    | some items =>
      if items.length = 0 then ⟨none, some (-3), setLastError "Vocab cannot be empty"⟩
      else
        match readVocabItems items with
        | .error r => r
        | .ok vocabVec =>
          match unigramFrom vocabVec unkId byteFallback with
          | .ok m => ⟨some m, some 0, st⟩
          | .error e =>
            ⟨none, some (-6), setLastError ("Failed to create Unigram model: " ++ e)⟩

/-! ### The BPE engine core, modelled from the spec -/

/-- Vocabulary membership. -/
def vocabHasTok (vocab : List (String × Nat)) (s : String) : Bool :=
  (vocab.lookup s).isSome

/-- Strip a configured continuing-subword-prefix from the front of a
right-hand merge part (spec §4.1 Build, prefix-stripping of the merged
form). -/
def stripPre (p : Option String) (s : String) : String :=
  match p with
  | some q => if q.isPrefixOf s then s.drop q.length else s
  | none => s

/-- The token a merge rule produces. -/
def mergeResult (b : BpeBuilder) (l r : String) : String := l ++ stripPre b.cswPre r

/-- Modelled from the spec: validity of one merge rule (spec §4.1 Build):
both endpoints and the merged form must be in the vocabulary. -/
def validMergeRule (b : BpeBuilder) (p : String × String) : Bool :=
  vocabHasTok b.vocab p.1 && vocabHasTok b.vocab p.2 &&
    vocabHasTok b.vocab (mergeResult b p.1 p.2)

/-- Dropout validation of the Build operation (spec §4.1): a configured
dropout must lie in [0.0, 1.0], else `InvalidDropout`. -/
def checkDropout (b : BpeBuilder) : Except String BPEModel :=
  match b.dropout with
  | some p => if 0 ≤ p ∧ p ≤ 1 then .ok ⟨b⟩ else .error "InvalidDropout"
  | none => .ok ⟨b⟩

/-- Modelled from the spec: the Build operation of the external BPE engine
(spec §4.1): merge rules are validated against the vocabulary
(`InvalidMergeRule`), a configured unk token must be present
(`UnknownTokenNotInVocab`), and dropout must be in range
(`InvalidDropout`); success yields the immutable engine. -/
def bpeBuild (b : BpeBuilder) : Except String BPEModel :=
  match b.merges.find? (fun p => !validMergeRule b p) with
  | some p => .error ("InvalidMergeRule: " ++ p.1 ++ " " ++ p.2)
  | none =>
    match b.unkToken with
    | some u =>
      if vocabHasTok b.vocab u then checkDropout b else .error "UnknownTokenNotInVocab"
    | none => checkDropout b

/-- Modelled from the spec: the rank of a merge rule is its position in the
original merges list (spec §3, lower rank = higher priority). -/
def pairRank (m : BPEModel) (a b : String) : Option Nat :=
  m.config.merges.findIdx? (fun p => p == (a, b))

/-- The rank-carrying adjacent-pair candidates of a symbol sequence:
`(position, rank)` for every adjacent pair that has a merge rule. -/
def candidates (m : BPEModel) : List String → List (Nat × Nat)
  | a :: b :: rest =>
    (match pairRank m a b with
     | some r => [(0, r)]
     | none => []) ++ (candidates m (b :: rest)).map (fun c => (c.1 + 1, c.2))
  | _ => []

/-- Lowest rank wins; the left-to-right fold keeps the leftmost position on
rank ties (spec §4.1 step 4). -/
def bestCand : List (Nat × Nat) → Option (Nat × Nat)
  | [] => none
  | c :: rest => some (rest.foldl (fun u v => if v.2 < u.2 then v else u) c)

/-- Insertion into a rank-sorted candidate list (rank, then position). -/
def insertByRank (c : Nat × Nat) : List (Nat × Nat) → List (Nat × Nat)
  | [] => [c]
  | d :: rest =>
    if c.2 < d.2 ∨ (c.2 = d.2 ∧ c.1 ≤ d.1) then c :: d :: rest
    else d :: insertByRank c rest

/-- Sort candidates by rank, position breaking ties. -/
def sortByRank : List (Nat × Nat) → List (Nat × Nat)
  | [] => []
  | c :: rest => insertByRank c (sortByRank rest)

/-- Modelled from the spec: with dropout active each candidate is skipped
per random draw and selection proceeds among the remaining candidates
(spec §4.1 step 4).  Draws are a boolean stream, `true` = drop. -/
def pickDropout : List (Nat × Nat) → List Bool → Option (Nat × Nat) × List Bool
  | [], rng => (none, rng)
  | c :: rest, rng =>
    if rng.headD false then pickDropout rest rng.tail else (some c, rng.tail)

/-- Merge-candidate selection: without dropout the globally lowest-ranked
pair (leftmost on ties), consuming no randomness; with dropout the first
surviving candidate in rank order. -/
def selectMerge (m : BPEModel) (syms : List String) (rng : List Bool) :
    Option Nat × List Bool :=
  match m.config.dropout with
  | none => ((bestCand (candidates m syms)).map (fun c => c.1), rng)
  | some _ =>
    let p := pickDropout (sortByRank (candidates m syms)) rng
    ((p.1).map (fun v => v.1), p.2)

/-- Replace the symbols at positions `i`, `i+1` by the merged token. -/
def applyMergeAt (m : BPEModel) : List String → Nat → List String
  | a :: b :: rest, 0 => mergeResult m.config a b :: rest
  | a :: rest, n + 1 => a :: applyMergeAt m rest n
  | l, _ => l

/-- Modelled from the spec: the greedy merge loop (spec §4.1 step 4), with
fuel (every applied merge shortens the word, so the initial symbol count
bounds the iteration). -/
def mergeLoop (m : BPEModel) : Nat → List String → List Bool → List String × List Bool
  | 0, syms, rng => (syms, rng)
  | fuel + 1, syms, rng =>
    match selectMerge m syms rng with
    | (none, rng') => (syms, rng')
    | (some i, rng') => mergeLoop m fuel (applyMergeAt m syms i) rng'

/-- Modelled from the spec: the initial symbol sequence of a word (spec
§4.1 step 2): one symbol per character, the continuing-subword-prefix
prepended to every symbol but the first, the end-of-word-suffix appended to
the last. -/
def wordSymbols (b : BpeBuilder) (w : String) : List String :=
  let cs := w.toList
  cs.enum.map (fun p =>
    let s := String.singleton p.2
    let s := if p.1 = 0 then s else (b.cswPre.getD "") ++ s
    if p.1 = cs.length - 1 then s ++ (b.eowSuf.getD "") else s)

/-- A resolved symbol: a vocabulary token or an unk substitution. -/
inductive Sym
  | tok (s : String)
  | unk
deriving DecidableEq

/-- UTF-8 bytes of a symbol string. -/
def strBytes (s : String) : List Nat :=
  (s.toList.map (fun c => (String.utf8EncodeChar c).map (fun b => b.toNat))).flatten

/-- An uppercase hexadecimal digit. -/
def hexDigit (n : Nat) : Char := if n < 10 then Char.ofNat (48 + n) else Char.ofNat (55 + n)

/-- The `<0xXX>`-style byte-fallback token form (spec §9). -/
def byteTok (b : Nat) : String :=
  "<0x" ++ String.mk [hexDigit (b / 16), hexDigit (b % 16)] ++ ">"

/-- Modelled from the spec: symbol resolution (spec §4.1 step 3): a symbol
present in the vocabulary stands; otherwise byte fallback decomposes it
into per-byte tokens when all of them are known; otherwise the unk token is
substituted when configured; otherwise the word is untokenizable
(`UnmappableCharacter`). -/
def resolveSyms (b : BpeBuilder) : List String → Except String (List Sym)
  | [] => .ok []
  | s :: rest => do
    let tail ← resolveSyms b rest
    if vocabHasTok b.vocab s then pure (.tok s :: tail)
    else if b.byteFallback &&
        (strBytes s).all (fun v => vocabHasTok b.vocab (byteTok v)) then
      pure ((strBytes s).map (fun v => Sym.tok (byteTok v)) ++ tail)
    else
      match b.unkToken with
      | some _ => pure (.unk :: tail)
      | none => .error "UnmappableCharacter"

/-- Collapse runs of consecutive unk symbols (spec `fuse_unk`). -/
def fuseUnks : List Sym → List Sym
  | [] => []
  | [s] => [s]
  | .unk :: .unk :: rest => fuseUnks (.unk :: rest)
  | .unk :: .tok s :: rest => .unk :: fuseUnks (.tok s :: rest)
  | .tok s :: rest => .tok s :: fuseUnks rest
termination_by l => l.length

/-- The string form of a resolved symbol. -/
def symStr (b : BpeBuilder) : Sym → String
  | .tok s => s
  | .unk => b.unkToken.getD ""

/-- Final id translation (spec §4.1 step 5); an unmapped final symbol is an
`UnknownId` error. -/
def translateSyms (vocab : List (String × Nat)) :
    List String → Except String (List (Nat × String))
  | [] => .ok []
  | s :: rest =>
    match vocab.lookup s with
    | some i => (translateSyms vocab rest).map (fun t => (i, s) :: t)
    | none => .error ("UnknownId: " ++ s)

/-- Modelled from the spec: tokenize-one-word (spec §4.1), the random
dropout draws threaded as a boolean stream. -/
def tokenizeWord (m : BPEModel) (rng : List Bool) (w : String) :
    Except String (List (Nat × String)) × List Bool :=
  match resolveSyms m.config (wordSymbols m.config w) with
  | .error e => (.error e, rng)
  | .ok syms0 =>
    let syms := (if m.config.fuseUnk then fuseUnks syms0 else syms0).map (symStr m.config)
    let p := mergeLoop m syms.length syms rng
    (translateSyms m.config.vocab p.1, p.2)

/-- Modelled from the spec: the external pre-tokenizer feeding the engine
(spec §6), as whitespace splitting. -/
def preTokenize (s : String) : List String := (splitWs s.toList).map (fun l => ⟨l⟩)

/-- encode-sequence (spec §4.1): tokenize each word in order, concatenating
the results. -/
def encodeWords (m : BPEModel) : List String → List Bool →
    Except String (List (Nat × String)) × List Bool
  | [], rng => (.ok [], rng)
  | w :: ws, rng =>
    match tokenizeWord m rng w with
    | (.error e, rng') => (.error e, rng')
    | (.ok pairs, rng') =>
      match encodeWords m ws rng' with
      | (.error e, rng2) => (.error e, rng2)
      | (.ok rest, rng2) => (.ok (pairs ++ rest), rng2)

/-- Modelled from the spec: `Tokenizer::encode` of the wrapped tokenizer on
one or two sequences; normalization and post-processing are outside the
core (spec §1 non-goals), so `add_special_tokens` does not influence the
core output. -/
def tokenizerEncode (tk : CTokenizer) (rng : List Bool) (primary : String)
    (second : Option String) : Except String (List (Nat × String)) × List Bool :=
  encodeWords tk.model (preTokenize primary ++ (second.map preTokenize).getD []) rng

/-! ### `CEncoding` and `tokenizers_encode` -/

/-- The scalar fields of `CEncoding` (lib.rs lines 21-32). -/
structure CEncodingBase where
  ids : List Nat
  tokens : List String
  offsets : List (Nat × Nat)
  typeIds : List Nat
  attentionMask : List Nat
  specialTokensMask : List Nat
  wordIds : List (Option Nat)
  sequenceIds : List (Option Nat)
deriving DecidableEq

/-- `CEncoding`.  The source type nests `overflowing: Vec<CEncoding>`
recursively; it is modelled to one level here, since none of the embedded
functions look deeper. -/
structure CEncoding extends CEncodingBase where
  overflowing : List CEncodingBase
deriving DecidableEq

/-- Modelled from the spec: `CEncoding::from_encoding` on an encoding the
core produced; the auxiliary fields of the external `Encoding` are outside
the BPE core (spec §1) and are filled canonically (one sequence, no special
tokens, no overflow). -/
def cEncodingFromTokens (pairs : List (Nat × String)) : CEncoding :=
  { ids := pairs.map (fun p => p.1)
    tokens := pairs.map (fun p => p.2)
    offsets := pairs.map (fun _ => (0, 0))
    typeIds := pairs.map (fun _ => 0)
    attentionMask := pairs.map (fun _ => 1)
    specialTokensMask := pairs.map (fun _ => 0)
    wordIds := pairs.map (fun _ => none)
    sequenceIds := pairs.map (fun _ => some 0)
    overflowing := [] }

/-- What `tokenizers_encode` leaves behind: the returned encoding pointer,
the value written through a non-null `len_ptr` (written only on success),
the status, the error cell, and the state of the randomness source. -/
structure EncodeResult where
  ret : Option CEncoding
  lenWritten : Option Nat
  status : Int
  err : ErrSt
  rngAfter : List Bool
deriving DecidableEq

/-- The success/failure tail of `tokenizers_encode` (lib.rs lines 275-289). -/
def encodeFinish : Except String (List (Nat × String)) × List Bool → EncodeResult
  | (.ok pairs, rng') =>
    let enc := cEncodingFromTokens pairs
    ⟨some enc, some enc.ids.length, 0, clearLastError, rng'⟩
  | (.error e, rng') =>
    ⟨none, none, 4, setLastError ("tokenizers_encode failed: " ++ e), rng'⟩

/-- `tokenizers_encode` (lib.rs lines 235-290). -/
def tokenizers_encode (tokenizer : Option CTokenizer) (sequence pairSeq : CStrPtr)
    (_addSpecialTokens : Bool) (_st : ErrSt) (rng : List Bool) : EncodeResult :=
  match tokenizer, sequence with
  | none, _ =>
    ⟨none, none, 1, setLastError "tokenizers_encode received null pointer", rng⟩
  | some _, none =>
    ⟨none, none, 1, setLastError "tokenizers_encode received null pointer", rng⟩
  | some tk, some seqd =>
    match seqd.toStr with
    | none =>
      ⟨none, none, 2, setLastError "tokenizers_encode could not decode primary sequence", rng⟩
    | some primary =>
      match pairSeq with
      | none => encodeFinish (tokenizerEncode tk rng primary none)
      | some pd =>
        match pd.toStr with
        | none =>
          ⟨none, none, 3, setLastError "tokenizers_encode could not decode pair sequence", rng⟩
        | some second => encodeFinish (tokenizerEncode tk rng primary (some second))

/-- The unused incoming error state of the null branches (the source reads
nothing from it); kept by name to make statements readable. -/
def encodeNullBranchStatus : Int := 1

/-! ### `tokenizers_encoding_get_ids` -/

/-- One store into a flat memory. -/
def memWrite (buf : Nat → Nat) (i v : Nat) : Nat → Nat :=
  fun j => if j = i then v else buf j

/-- Elementwise copy of `n` elements of `src` into the memory starting at
index `i`. -/
def copyFrom : List Nat → Nat → Nat → (Nat → Nat) → (Nat → Nat)
  | _, 0, _, buf => buf
  | [], _ + 1, _, buf => buf
  | x :: xs, n + 1, i, buf => copyFrom xs n (i + 1) (memWrite buf i x)

/-- `ptr::copy_nonoverlapping(src.as_ptr(), buffer, n)` on a `u32` buffer. -/
def copyNonoverlapping (src : List Nat) (n : Nat) (buf : Nat → Nat) : Nat → Nat :=
  copyFrom src n 0 buf

/-- `tokenizers_encoding_get_ids` (lib.rs lines 301-316): result is the
buffer memory after the call together with the pointee of `encoding` after
the call (the function takes it by const pointer and never writes it). -/
def tokenizers_encoding_get_ids (encoding : Option CEncoding)
    (buffer : Option (Nat → Nat)) (len : Nat) :
    Option (Nat → Nat) × Option CEncoding :=
  match encoding, buffer with
  | some e, some buf =>
    (some (copyNonoverlapping e.ids (min len e.ids.length) buf), some e)
  | e, buf => (buf, e)

/-! ### The encoding-manipulation functions of encoding/methods.rs -/

/-- Result of `tokenizers_encoding_merge`: returned pointer, `len_ptr`
write, status, error cell. -/
structure MergeOutcome where
  ret : Option CEncoding
  lenWritten : Option Nat
  status : Int
  err : ErrSt
deriving DecidableEq

/-- `tokenizers_encoding_merge` (methods.rs lines 10-44): `encs` is `none`
for a null array pointer, otherwise the `count` pointers read from it.  The
conversion loop is a placeholder; after checking for null elements the
function always reports "not fully implemented yet". -/
def tokenizers_encoding_merge (encs : Option (List (Option CEncoding)))
    (_growingOffsets : Bool) : MergeOutcome :=
  match encs with
  | none => ⟨none, none, 1, setLastError "tokenizers_encoding_merge received null pointer"⟩
  | some l =>
    if l.any (fun e => e.isNone) then
      ⟨none, none, 2, setLastError "tokenizers_encoding_merge received null encoding pointer"⟩
    else
      ⟨none, none, 3, setLastError "tokenizers_encoding_merge not fully implemented yet"⟩

/-- Result of the `c_int`-returning placeholder methods that take a mutable
encoding: the integer return, the pointee after the call, status, error. -/
structure IntOutcome where
  ret : Int
  encAfter : Option CEncoding
  status : Int
  err : ErrSt
deriving DecidableEq

/-- `tokenizers_encoding_pad` (methods.rs lines 47-88). -/
def tokenizers_encoding_pad (encoding : Option CEncoding)
    (_targetLength _padId _padTypeId : Nat) (padToken : CStrPtr)
    (direction : Int) : IntOutcome :=
  match encoding with
  | none => ⟨0, none, 1, setLastError "tokenizers_encoding_pad received null pointer"⟩
  | some e =>
    if direction = 0 ∨ direction = 1 then
      match padToken with
      | some d =>
        match d.toStr with
        | some _ =>
          ⟨0, some e, 4, setLastError "tokenizers_encoding_pad not fully implemented yet"⟩
        | none =>
          ⟨0, some e, 3, setLastError "tokenizers_encoding_pad could not decode pad token"⟩
      | none =>
        ⟨0, some e, 4, setLastError "tokenizers_encoding_pad not fully implemented yet"⟩
    else
      ⟨0, some e, 2,
        setLastError ("tokenizers_encoding_pad unknown direction: " ++ toString direction)⟩

/-- `tokenizers_encoding_truncate` (methods.rs lines 91-120). -/
def tokenizers_encoding_truncate (encoding : Option CEncoding)
    (_maxLength _stride : Nat) (direction : Int) : IntOutcome :=
  match encoding with
  | none => ⟨0, none, 1, setLastError "tokenizers_encoding_truncate received null pointer"⟩
  | some e =>
    if direction = 0 ∨ direction = 1 then
      ⟨0, some e, 3, setLastError "tokenizers_encoding_truncate not fully implemented yet"⟩
    else
      ⟨0, some e, 2,
        setLastError ("tokenizers_encoding_truncate unknown direction: " ++ toString direction)⟩

/-- `tokenizers_encoding_set_sequence_id` (methods.rs lines 123-139). -/
def tokenizers_encoding_set_sequence_id (encoding : Option CEncoding)
    (_sequenceId : Nat) : IntOutcome :=
  match encoding with
  | none =>
    ⟨0, none, 1, setLastError "tokenizers_encoding_set_sequence_id received null pointer"⟩
  | some e =>
    ⟨0, some e, 2, setLastError "tokenizers_encoding_set_sequence_id not fully implemented yet"⟩

/-- Result of the `bool`-returning placeholder methods: the boolean return,
whether any out-parameter was written (never), status, error. -/
structure BoolOutcome where
  ret : Bool
  outWritten : Bool
  status : Int
  err : ErrSt
deriving DecidableEq

/-- `tokenizers_encoding_word_to_tokens` (methods.rs lines 142-161);
`startNull`/`endNull` tell whether the out-pointers are null. -/
def tokenizers_encoding_word_to_tokens (encoding : Option CEncoding)
    (_wordIndex _sequenceIndex : Nat) (startNull endNull : Bool) : BoolOutcome :=
  if encoding.isNone ∨ startNull ∨ endNull then
    ⟨false, false, 1, setLastError "tokenizers_encoding_word_to_tokens received null pointer"⟩
  else
    ⟨false, false, 2, setLastError "tokenizers_encoding_word_to_tokens not fully implemented yet"⟩

/-- `tokenizers_encoding_word_to_chars` (methods.rs lines 164-183). -/
def tokenizers_encoding_word_to_chars (encoding : Option CEncoding)
    (_wordIndex _sequenceIndex : Nat) (startNull endNull : Bool) : BoolOutcome :=
  if encoding.isNone ∨ startNull ∨ endNull then
    ⟨false, false, 1, setLastError "tokenizers_encoding_word_to_chars received null pointer"⟩
  else
    ⟨false, false, 2, setLastError "tokenizers_encoding_word_to_chars not fully implemented yet"⟩

/-- Result of the `i32`-returning placeholder methods. -/
structure I32Outcome where
  ret : Int
  status : Int
  err : ErrSt
deriving DecidableEq

/-- `tokenizers_encoding_token_to_sequence` (methods.rs lines 186-202). -/
def tokenizers_encoding_token_to_sequence (encoding : Option CEncoding)
    (_tokenIndex : Nat) : I32Outcome :=
  match encoding with
  | none =>
    ⟨-1, 1, setLastError "tokenizers_encoding_token_to_sequence received null pointer"⟩
  | some _ =>
    ⟨-1, 2, setLastError "tokenizers_encoding_token_to_sequence not fully implemented yet"⟩

/-- `tokenizers_encoding_token_to_chars` (methods.rs lines 205-224). -/
def tokenizers_encoding_token_to_chars (encoding : Option CEncoding)
    (_tokenIndex : Nat) (seqNull startNull endNull : Bool) : BoolOutcome :=
  if encoding.isNone ∨ seqNull ∨ startNull ∨ endNull then
    ⟨false, false, 1, setLastError "tokenizers_encoding_token_to_chars received null pointer"⟩
  else
    ⟨false, false, 2, setLastError "tokenizers_encoding_token_to_chars not fully implemented yet"⟩

/-- `tokenizers_encoding_token_to_word` (methods.rs lines 227-245). -/
def tokenizers_encoding_token_to_word (encoding : Option CEncoding)
    (_tokenIndex : Nat) (seqNull wordNull : Bool) : BoolOutcome :=
  if encoding.isNone ∨ seqNull ∨ wordNull then
    ⟨false, false, 1, setLastError "tokenizers_encoding_token_to_word received null pointer"⟩
  else
    ⟨false, false, 2, setLastError "tokenizers_encoding_token_to_word not fully implemented yet"⟩

/-- `tokenizers_encoding_char_to_token` (methods.rs lines 248-265). -/
def tokenizers_encoding_char_to_token (encoding : Option CEncoding)
    (_charPos _sequenceIndex : Nat) : I32Outcome :=
  match encoding with
  | none =>
    ⟨-1, 1, setLastError "tokenizers_encoding_char_to_token received null pointer"⟩
  | some _ =>
    ⟨-1, 2, setLastError "tokenizers_encoding_char_to_token not fully implemented yet"⟩

/-- `tokenizers_encoding_char_to_word` (methods.rs lines 268-285). -/
def tokenizers_encoding_char_to_word (encoding : Option CEncoding)
    (_charPos _sequenceIndex : Nat) : I32Outcome :=
  match encoding with
  | none =>
    ⟨-1, 1, setLastError "tokenizers_encoding_char_to_word received null pointer"⟩
  | some _ =>
    ⟨-1, 2, setLastError "tokenizers_encoding_char_to_word not fully implemented yet"⟩

/-! ### `tokenizers_whitespace_split_pre_tokenize_str` -/

/-- The escaping of whitespace_split.rs line 103:
`token.replace('\\', "\\\\").replace('"', "\\\"")`.  The two sequential
single-character replacements equal this per-character expansion, since the
first pass introduces no quote and the second pass touches no backslash. -/
def jsonEscapeChar (c : Char) : List Char :=
  if c = '\\' then ['\\', '\\'] else if c = '"' then ['\\', '"'] else [c]

/-- JSON-escape a token string. -/
def jsonEscape (s : String) : String := ⟨(s.toList.map jsonEscapeChar).flatten⟩

/-- One item of the JSON array assembled in whitespace_split.rs lines
98-108. -/
def wsSplitItem (t : String × Nat × Nat) : String :=
  "\x7b\"token\":\"" ++ jsonEscape t.1 ++ "\",\"offsets\":[" ++ toString t.2.1 ++
    "," ++ toString t.2.2 ++ "]\x7d"

/-- The JSON array assembled in whitespace_split.rs lines 98-109 (the
`if idx > 0` comma insertion is an intercalation). -/
def wsSplitJson (splits : List (String × Nat × Nat)) : String :=
  "[" ++ String.intercalate "," (splits.map wsSplitItem) ++ "]"

/-- What `tokenizers_whitespace_split_pre_tokenize_str` leaves behind: the
`usize` return, the status written (`none` when the status pointer is null
and nothing is written), the error cell after the call, and the output
byte buffer after the call. -/
structure WsSplitResult where
  ret : Nat
  status : Option Int
  err : ErrSt
  outAfter : Option (Nat → Nat)

/-- `tokenizers_whitespace_split_pre_tokenize_str` (whitespace_split.rs
lines 58-131).  `preTok` marks a non-null pre-tokenizer pointer (the
`WhitespaceSplit` struct carries no data); `split` is the external
`pre_tokenize` + `get_splits` pipeline yielding tokens with char offsets.
No path of this function ever touches the thread-local error cell. -/
def tokenizers_whitespace_split_pre_tokenize_str
    (split : String → Except Unit (List (String × Nat × Nat)))
    (preTok : Option Unit) (input : CStrPtr) (output : Option (Nat → Nat))
    (outputLen : Nat) (statusNull : Bool) (st : ErrSt) : WsSplitResult :=
  if statusNull then ⟨0, none, st, output⟩
  else
    match preTok, input with
    | none, _ => ⟨0, some (-1), st, output⟩
    | some _, none => ⟨0, some (-1), st, output⟩
    | some _, some d =>
      match d.toStr with
      | none => ⟨0, some (-2), st, output⟩
      | some s =>
        match split s with
        | .error _ => ⟨0, some (-3), st, output⟩
        | .ok splits =>
          let bytes := strBytes (wsSplitJson splits)
          let required := bytes.length + 1
          match output with
          | none => ⟨required, some 0, st, none⟩
          | some buf =>
            if outputLen < required then ⟨0, some (-4), st, some buf⟩
            else
              ⟨bytes.length, some 0, st,
                some (memWrite (copyNonoverlapping bytes bytes.length buf)
                  bytes.length 0)⟩

/-! ### Well-formedness of external error text -/

/-- An external fallible function reports NUL-free error texts (a message
with an interior NUL cannot be stored as a C string). -/
def errTextsNulFree {α β : Type} (f : α → Except String β) : Prop :=
  ∀ a e, f a = Except.error e → hasNulChar e = false

/-- The UTF-8 error display of a pointer's bytes is NUL-free. -/
def ptrNulFree (p : CStrPtr) : Prop :=
  ∀ e, p = some (CStrData.notUtf8 e) → hasNulChar e = false

/-! ### Concrete instances used in the scenario claims -/

/-- The vocabulary of the spec's "hello" scenario (spec §8). -/
def helloVocab : List (String × Nat) :=
  [("h", 0), ("e", 1), ("l", 2), ("o", 3), ("he", 4), ("ll", 5), ("hell", 6), ("hello", 7)]

/-- The merges of the spec's "hello" scenario, ranks 0-3. -/
def helloMerges : List (String × String) :=
  [("h", "e"), ("l", "l"), ("he", "ll"), ("hell", "o")]

/-- The builder of the "hello" scenario (all options default). -/
def helloBuilder : BpeBuilder := { vocab := helloVocab, merges := helloMerges }

/-- A one-token vocabulary builder used as a minimal successful build. -/
def tinyBuilder : BpeBuilder := { vocab := [("a", 0)], merges := [] }

/-- A stand-in for the external vocabulary JSON loader (out of scope per
spec §6) that returns the one-token vocabulary. -/
def tinyParse : String → Except String (List (String × Nat)) :=
  fun _ => .ok [("a", 0)]

end CTok

/-! ## Helper lemmas -/

namespace CTok

theorem digitChar_ne_nul (m : Nat) (h : m < 10) : (Nat.digitChar m).toNat ≠ 0 := by
  interval_cases m <;> decide

theorem toDigitsCore_ne_nul : ∀ (fuel n : Nat) (ds : List Char),
    (∀ c ∈ ds, c.toNat ≠ 0) → ∀ c ∈ Nat.toDigitsCore 10 fuel n ds, c.toNat ≠ 0 := by
  intro fuel
  induction fuel with
  | zero => intro n ds h c hc; exact h c (by simpa [Nat.toDigitsCore] using hc)
  | succ fuel ih =>
    intro n ds h c hc
    rw [Nat.toDigitsCore] at hc
    by_cases h10 : n / 10 = 0
    · rw [if_pos h10] at hc
      rcases List.mem_cons.mp hc with rfl | hmem
      · exact digitChar_ne_nul _ (Nat.mod_lt _ (by norm_num))
      · exact h c hmem
    · rw [if_neg h10] at hc
      refine ih (n / 10) _ ?_ c hc
      intro d hd
      rcases List.mem_cons.mp hd with rfl | hmem
      · exact digitChar_ne_nul _ (Nat.mod_lt _ (by norm_num))
      · exact h d hmem

theorem hasNulChar_natRepr (n : Nat) : hasNulChar (Nat.repr n) = false := by
  have hrep : (Nat.repr n).toList = Nat.toDigitsCore 10 (n + 1) n [] := rfl
  rw [hasNulChar, hrep, List.any_eq_false]
  intro c hc
  simp only [decide_eq_true_eq]
  exact toDigitsCore_ne_nul (n + 1) n [] (by simp) c hc

theorem toString_nat_eq (n : Nat) : toString n = Nat.repr n := rfl

theorem hasNulChar_append (a b : String) :
    hasNulChar (a ++ b) = (hasNulChar a || hasNulChar b) := by
  simp [hasNulChar, String.toList, String.data_append, List.any_append]

theorem hasNul_invalidMergeLineMsg (n k : Nat) :
    hasNulChar (invalidMergeLineMsg n k) = false := by
  simp [invalidMergeLineMsg, toString_nat_eq, hasNulChar_append, hasNulChar_natRepr]
  decide

theorem parseMergesGo_spec (ls : List (List Char)) :
    ∀ (i : Nat) (acc : List (String × String)),
    parseMergesGo i ls acc =
      match (ls.enumFrom i).find?
          (fun p => !lineIgnored p.2 && (lineParts p.2).length != 2) with
      | some p => Except.error (p.1 + 1, (lineParts p.2).length)
      | none => Except.ok (acc.reverse ++ (ls.filter (fun l => !lineIgnored l)).map
          (fun l => (⟨(lineParts l).getD 0 []⟩, ⟨(lineParts l).getD 1 []⟩))) := by
  induction ls with
  | nil => intro i acc; simp [parseMergesGo, List.enumFrom]
  | cons l rest ih =>
    intro i acc
    by_cases hig : lineIgnored l
    · have hstep : parseMergesGo i (l :: rest) acc = parseMergesGo (i + 1) rest acc := by
        simp [parseMergesGo, hig]
      have hpred : (!lineIgnored l && (lineParts l).length != 2) = false := by
        simp [hig]
      rw [hstep, ih]
      have hfind : ((l :: rest).enumFrom i).find?
          (fun p => !lineIgnored p.2 && (lineParts p.2).length != 2) =
          (rest.enumFrom (i + 1)).find?
            (fun p => !lineIgnored p.2 && (lineParts p.2).length != 2) := by
        simp [List.enumFrom, List.find?, hpred]
      rw [hfind]
      simp [List.filter_cons, hig]
    · rcases hlp : lineParts l with _ | ⟨a, _ | ⟨b, _ | ⟨c, t⟩⟩⟩
      · simp [parseMergesGo, hig, hlp, List.enumFrom, List.find?]
      · simp [parseMergesGo, hig, hlp, List.enumFrom, List.find?]
      · have hstep : parseMergesGo i (l :: rest) acc =
            parseMergesGo (i + 1) rest ((⟨a⟩, ⟨b⟩) :: acc) := by
          simp [parseMergesGo, hig, hlp]
        have hpred : (!lineIgnored l && (lineParts l).length != 2) = false := by
          simp [hlp]
        rw [hstep, ih]
        have hfind : ((l :: rest).enumFrom i).find?
            (fun p => !lineIgnored p.2 && (lineParts p.2).length != 2) =
            (rest.enumFrom (i + 1)).find?
              (fun p => !lineIgnored p.2 && (lineParts p.2).length != 2) := by
          simp [List.enumFrom, List.find?, hpred]
        rw [hfind]
        cases hf : (rest.enumFrom (i + 1)).find?
            (fun p => !lineIgnored p.2 && (lineParts p.2).length != 2) with
        | some p => simp
        | none => simp [List.filter_cons, hig, hlp]
      · simp [parseMergesGo, hig, hlp, List.enumFrom, List.find?]

theorem parseMerges_eq (s : String) :
    parseMerges s =
      match mergesFirstBad s with
      | some e => Except.error e
      | none => Except.ok (mergesPairs s) := by
  rw [parseMerges, parseMergesGo_spec]
  rw [mergesFirstBad, mergesPairs]
  simp only [List.enum]
  cases hf : ((rustLines s).enumFrom 0).find?
      (fun p => !lineIgnored p.2 && (lineParts p.2).length != 2) with
  | some p => simp
  | none => simp

end CTok

/-! ## The claims -/

namespace CTok

/-- C7: for the vocabulary h, e, l, o, he, ll, hell, hello (ids 0-7) and the
merges (h,e), (l,l), (he,ll), (hell,o) (ranks 0-3), the build succeeds and
tokenizing the word "hello" applies the merges in rank order and returns
exactly the single token "hello" with id 7 (not a longer decomposition). -/
theorem C7_hello_single_token :
    bpeBuild helloBuilder = .ok ⟨helloBuilder⟩ ∧
    tokenizeWord ⟨helloBuilder⟩ [] "hello" = (.ok [(7, "hello")], []) := by
  constructor <;> decide

end CTok

namespace CTok

/-- C2: a merges line that trims to empty or to a `#`-comment is ignored;
every other line must consist of exactly two whitespace-separated tokens;
the first offending line makes `tokenizers_bpe_create` fail with a null
return, status -4 and a message naming the 1-based line number and the part
count found; well-formed lines are collected as merge pairs in their
original order and handed to the builder. -/
theorem C2_merges_format :
    (∀ s, parseMerges s =
      match mergesFirstBad s with
      | some e => Except.error e
      | none => Except.ok (mergesPairs s)) ∧
    (∀ pv build vs vocab ms cc d unk pre suf fu bf st n k,
      pv vs = Except.ok vocab → mergesFirstBad ms = some (n, k) →
      tokenizers_bpe_create pv build (some (.utf8 vs)) (some (.utf8 ms)) cc d unk pre
          suf fu bf st =
        some ⟨none, -4, some (invalidMergeLineMsg n k)⟩) ∧
    (∀ pv build vs vocab ms cc d unk pre suf fu bf st,
      pv vs = Except.ok vocab → mergesFirstBad ms = none →
      tokenizers_bpe_create pv build (some (.utf8 vs)) (some (.utf8 ms)) cc d unk pre
          suf fu bf st =
        some (match build (assembleBuilder vocab (mergesPairs ms) cc d unk pre suf fu bf) with
          | Except.ok m => ⟨some m, 0, st⟩
          | Except.error e => ⟨none, -5, setLastError (buildFailMsg e)⟩)) := by
  refine ⟨parseMerges_eq, ?_, ?_⟩
  · intro pv build vs vocab ms cc d unk pre suf fu bf st n k hpv hbad
    have hpm : parseMerges ms = Except.error (n, k) := by
      rw [parseMerges_eq, hbad]
    simp only [tokenizers_bpe_create, Bind.bind, Option.bind, CStrData.toStr]
    rw [hpv]
    simp only [bpeCreateFromVocab, CStrData.toStr]
    rw [hpm]
    simp [setLastError, hasNul_invalidMergeLineMsg]
  · intro pv build vs vocab ms cc d unk pre suf fu bf st hpv hgood
    have hpm : parseMerges ms = Except.ok (mergesPairs ms) := by
      rw [parseMerges_eq, hgood]
    simp only [tokenizers_bpe_create, Bind.bind, Option.bind, CStrData.toStr]
    rw [hpv]
    simp only [bpeCreateFromVocab, CStrData.toStr]
    rw [hpm]

/-- Witness for C2 at a concrete merges string whose third line has three
tokens: creation fails with status -4 naming line 3. -/
theorem C2_witness :
    tinyParse "v" = Except.ok [("a", 0)] ∧
    mergesFirstBad "#c\na b\nx y z" = some (3, 3) ∧
    tokenizers_bpe_create tinyParse bpeBuild (some (.utf8 "v"))
        (some (.utf8 "#c\na b\nx y z")) 0 (-1) none none none false false none =
      some ⟨none, -4, some (invalidMergeLineMsg 3 3)⟩ :=
  ⟨rfl, by decide,
    C2_merges_format.2.1 tinyParse bpeBuild "v" [("a", 0)] "#c\na b\nx y z" 0 (-1)
      none none none false false none 3 3 rfl (by decide)⟩

end CTok

namespace CTok

theorem copyFrom_spec : ∀ (src : List Nat) (n i0 : Nat) (buf : Nat → Nat),
    n ≤ src.length →
    ∀ j, copyFrom src n i0 buf j =
      if i0 ≤ j ∧ j < i0 + n then src.getD (j - i0) 0 else buf j := by
  intro src
  induction src with
  | nil =>
    intro n i0 buf hn j
    have h0 : n = 0 := Nat.le_zero.mp hn
    subst h0
    rw [copyFrom, if_neg (by omega)]
  | cons x xs ih =>
    intro n i0 buf hn j
    cases n with
    | zero => rw [copyFrom, if_neg (by omega)]
    | succ m =>
      rw [copyFrom, ih m (i0 + 1) _ (by simpa using hn) j]
      by_cases hj : j = i0
      · subst hj
        rw [if_neg (by omega), if_pos (by omega)]
        simp [memWrite]
      · by_cases hin : i0 + 1 ≤ j ∧ j < i0 + 1 + m
        · rw [if_pos hin, if_pos (by omega)]
          have hsub : j - i0 = (j - (i0 + 1)) + 1 := by omega
          rw [hsub, List.getD_cons_succ]
        · rw [if_neg hin, if_neg (by omega)]
          simp [memWrite, hj]

theorem copyNonoverlapping_spec (src : List Nat) (n : Nat) (hn : n ≤ src.length)
    (buf : Nat → Nat) (j : Nat) :
    copyNonoverlapping src n buf j = if j < n then src.getD j 0 else buf j := by
  rw [copyNonoverlapping, copyFrom_spec src n 0 buf hn j]
  simp

/-- C9: `tokenizers_encoding_get_ids` returns without writing when either
pointer is null; otherwise it writes exactly `min(len, #ids)` id values
starting at index 0 of the buffer, leaves every buffer position at a larger
index unchanged, and leaves the encoding itself unmodified. -/
theorem C9_get_ids_frame :
    (∀ buf len, tokenizers_encoding_get_ids none buf len = (buf, none)) ∧
    (∀ e len, tokenizers_encoding_get_ids (some e) none len = (none, some e)) ∧
    (∀ e buf len,
      tokenizers_encoding_get_ids (some e) (some buf) len =
        (some (fun i => if i < min len e.ids.length then e.ids.getD i 0 else buf i),
          some e)) := by
  refine ⟨fun buf len => rfl, fun e len => rfl, fun e buf len => ?_⟩
  rw [tokenizers_encoding_get_ids]
  have hcopy : copyNonoverlapping e.ids (min len e.ids.length) buf =
      fun i => if i < min len e.ids.length then e.ids.getD i 0 else buf i :=
    funext (fun i => copyNonoverlapping_spec _ _ (Nat.min_le_right _ _) _ i)
  rw [hcopy]

end CTok

namespace CTok

theorem setLastError_eq_some (m : String) (h : hasNulChar m = false) :
    setLastError m = some m := by simp [setLastError, h]

theorem C8_methods_unimplemented :
    (∀ encs go,
      (tokenizers_encoding_merge encs go).status ≠ 0 ∧
      (tokenizers_encoding_merge encs go).ret = none ∧
      (tokenizers_encoding_merge encs go).lenWritten = none) ∧
    (∀ (l : List CEncoding) go,
      (tokenizers_encoding_merge (some (l.map some)) go).err =
        some "tokenizers_encoding_merge not fully implemented yet") ∧
    (∀ enc t p q ptk dir,
      (tokenizers_encoding_pad enc t p q ptk dir).status ≠ 0 ∧
      (tokenizers_encoding_pad enc t p q ptk dir).ret = 0 ∧
      (tokenizers_encoding_pad enc t p q ptk dir).encAfter = enc) ∧
    (∀ e t p q,
      (tokenizers_encoding_pad (some e) t p q none 1).err =
        some "tokenizers_encoding_pad not fully implemented yet") ∧
    (∀ enc ml sr dir,
      (tokenizers_encoding_truncate enc ml sr dir).status ≠ 0 ∧
      (tokenizers_encoding_truncate enc ml sr dir).ret = 0 ∧
      (tokenizers_encoding_truncate enc ml sr dir).encAfter = enc) ∧
    (∀ e ml sr,
      (tokenizers_encoding_truncate (some e) ml sr 0).err =
        some "tokenizers_encoding_truncate not fully implemented yet") ∧
    (∀ enc sid,
      (tokenizers_encoding_set_sequence_id enc sid).status ≠ 0 ∧
      (tokenizers_encoding_set_sequence_id enc sid).ret = 0 ∧
      (tokenizers_encoding_set_sequence_id enc sid).encAfter = enc) ∧
    (∀ e sid,
      (tokenizers_encoding_set_sequence_id (some e) sid).err =
        some "tokenizers_encoding_set_sequence_id not fully implemented yet") ∧
    (∀ enc w sq sn en,
      (tokenizers_encoding_word_to_tokens enc w sq sn en).status ≠ 0 ∧
      (tokenizers_encoding_word_to_tokens enc w sq sn en).ret = false ∧
      (tokenizers_encoding_word_to_tokens enc w sq sn en).outWritten = false) ∧
    (∀ e w sq,
      (tokenizers_encoding_word_to_tokens (some e) w sq false false).err =
        some "tokenizers_encoding_word_to_tokens not fully implemented yet") ∧
    (∀ enc w sq sn en,
      (tokenizers_encoding_word_to_chars enc w sq sn en).status ≠ 0 ∧
      (tokenizers_encoding_word_to_chars enc w sq sn en).ret = false ∧
      (tokenizers_encoding_word_to_chars enc w sq sn en).outWritten = false) ∧
    (∀ e w sq,
      (tokenizers_encoding_word_to_chars (some e) w sq false false).err =
        some "tokenizers_encoding_word_to_chars not fully implemented yet") ∧
    (∀ enc ti,
      (tokenizers_encoding_token_to_sequence enc ti).status ≠ 0 ∧
      (tokenizers_encoding_token_to_sequence enc ti).ret = -1) ∧
    (∀ e ti,
      (tokenizers_encoding_token_to_sequence (some e) ti).err =
        some "tokenizers_encoding_token_to_sequence not fully implemented yet") ∧
    (∀ enc ti a b c,
      (tokenizers_encoding_token_to_chars enc ti a b c).status ≠ 0 ∧
      (tokenizers_encoding_token_to_chars enc ti a b c).ret = false ∧
      (tokenizers_encoding_token_to_chars enc ti a b c).outWritten = false) ∧
    (∀ e ti,
      (tokenizers_encoding_token_to_chars (some e) ti false false false).err =
        some "tokenizers_encoding_token_to_chars not fully implemented yet") ∧
    (∀ enc ti a b,
      (tokenizers_encoding_token_to_word enc ti a b).status ≠ 0 ∧
      (tokenizers_encoding_token_to_word enc ti a b).ret = false ∧
      (tokenizers_encoding_token_to_word enc ti a b).outWritten = false) ∧
    (∀ e ti,
      (tokenizers_encoding_token_to_word (some e) ti false false).err =
        some "tokenizers_encoding_token_to_word not fully implemented yet") ∧
    (∀ enc cp sq,
      (tokenizers_encoding_char_to_token enc cp sq).status ≠ 0 ∧
      (tokenizers_encoding_char_to_token enc cp sq).ret = -1) ∧
    (∀ e cp sq,
      (tokenizers_encoding_char_to_token (some e) cp sq).err =
        some "tokenizers_encoding_char_to_token not fully implemented yet") ∧
    (∀ enc cp sq,
      (tokenizers_encoding_char_to_word enc cp sq).status ≠ 0 ∧
      (tokenizers_encoding_char_to_word enc cp sq).ret = -1) ∧
    (∀ e cp sq,
      (tokenizers_encoding_char_to_word (some e) cp sq).err =
        some "tokenizers_encoding_char_to_word not fully implemented yet") := by
  refine ⟨?_, ?_, ?_, ?_, ?_, ?_, ?_, ?_, ?_, ?_, ?_, ?_, ?_, ?_, ?_, ?_, ?_, ?_,
    ?_, ?_, ?_, ?_⟩
  · intro encs go
    cases encs with
    | none => norm_num [tokenizers_encoding_merge]
    | some l =>
      by_cases h : l.any (fun e => e.isNone)
      · simp only [tokenizers_encoding_merge, if_pos h]
        norm_num
      · simp only [tokenizers_encoding_merge, if_neg h]
        norm_num
  · intro l go
    have h : (l.map some).any (fun e => e.isNone) = false := by simp
    simp only [tokenizers_encoding_merge, h, Bool.false_eq_true, if_false]
    exact setLastError_eq_some "tokenizers_encoding_merge not fully implemented yet"
      (by decide)
  · intro enc t p q ptk dir
    cases enc with
    | none => norm_num [tokenizers_encoding_pad]
    | some e =>
      by_cases hd : dir = 0 ∨ dir = 1
      · rcases ptk with _ | d
        · simp only [tokenizers_encoding_pad, if_pos hd]
          norm_num
        · rcases d with sv | sv
          · simp only [tokenizers_encoding_pad, if_pos hd, CStrData.toStr]
            norm_num
          · simp only [tokenizers_encoding_pad, if_pos hd, CStrData.toStr]
            norm_num
      · simp only [tokenizers_encoding_pad, if_neg hd]
        norm_num
  · intro e t p q
    simp only [tokenizers_encoding_pad,
      if_pos (by norm_num : (1 : Int) = 0 ∨ (1 : Int) = 1)]
    exact setLastError_eq_some "tokenizers_encoding_pad not fully implemented yet"
      (by decide)
  · intro enc ml sr dir
    cases enc with
    | none => norm_num [tokenizers_encoding_truncate]
    | some e =>
      by_cases hd : dir = 0 ∨ dir = 1
      · simp only [tokenizers_encoding_truncate, if_pos hd]
        norm_num
      · simp only [tokenizers_encoding_truncate, if_neg hd]
        norm_num
  · intro e ml sr
    simp only [tokenizers_encoding_truncate,
      if_pos (by norm_num : (0 : Int) = 0 ∨ (0 : Int) = 1)]
    exact setLastError_eq_some "tokenizers_encoding_truncate not fully implemented yet"
      (by decide)
  · intro enc sid
    cases enc with
    | none => norm_num [tokenizers_encoding_set_sequence_id]
    | some e => norm_num [tokenizers_encoding_set_sequence_id]
  · intro e sid
    exact setLastError_eq_some
      "tokenizers_encoding_set_sequence_id not fully implemented yet" (by decide)
  · intro enc w sq sn en
    by_cases h : enc.isNone = true ∨ sn = true ∨ en = true
    · simp only [tokenizers_encoding_word_to_tokens, if_pos h]
      norm_num
    · simp only [tokenizers_encoding_word_to_tokens, if_neg h]
      norm_num
  · intro e w sq
    have h : ¬((some e : Option CEncoding).isNone = true ∨ false = true ∨
        false = true) := by simp
    simp only [tokenizers_encoding_word_to_tokens, if_neg h]
    exact setLastError_eq_some
      "tokenizers_encoding_word_to_tokens not fully implemented yet" (by decide)
  · intro enc w sq sn en
    by_cases h : enc.isNone = true ∨ sn = true ∨ en = true
    · simp only [tokenizers_encoding_word_to_chars, if_pos h]
      norm_num
    · simp only [tokenizers_encoding_word_to_chars, if_neg h]
      norm_num
  · intro e w sq
    have h : ¬((some e : Option CEncoding).isNone = true ∨ false = true ∨
        false = true) := by simp
    simp only [tokenizers_encoding_word_to_chars, if_neg h]
    exact setLastError_eq_some
      "tokenizers_encoding_word_to_chars not fully implemented yet" (by decide)
  · intro enc ti
    cases enc with
    | none => norm_num [tokenizers_encoding_token_to_sequence]
    | some e => norm_num [tokenizers_encoding_token_to_sequence]
  · intro e ti
    exact setLastError_eq_some
      "tokenizers_encoding_token_to_sequence not fully implemented yet" (by decide)
  · intro enc ti a b c
    by_cases h : enc.isNone = true ∨ a = true ∨ b = true ∨ c = true
    · simp only [tokenizers_encoding_token_to_chars, if_pos h]
      norm_num
    · simp only [tokenizers_encoding_token_to_chars, if_neg h]
      norm_num
  · intro e ti
    have h : ¬((some e : Option CEncoding).isNone = true ∨ false = true ∨
        false = true ∨ false = true) := by simp
    simp only [tokenizers_encoding_token_to_chars, if_neg h]
    exact setLastError_eq_some
      "tokenizers_encoding_token_to_chars not fully implemented yet" (by decide)
  · intro enc ti a b
    by_cases h : enc.isNone = true ∨ a = true ∨ b = true
    · simp only [tokenizers_encoding_token_to_word, if_pos h]
      norm_num
    · simp only [tokenizers_encoding_token_to_word, if_neg h]
      norm_num
  · intro e ti
    have h : ¬((some e : Option CEncoding).isNone = true ∨ false = true ∨
        false = true) := by simp
    simp only [tokenizers_encoding_token_to_word, if_neg h]
    exact setLastError_eq_some
      "tokenizers_encoding_token_to_word not fully implemented yet" (by decide)
  · intro enc cp sq
    cases enc with
    | none => norm_num [tokenizers_encoding_char_to_token]
    | some e => norm_num [tokenizers_encoding_char_to_token]
  · intro e cp sq
    exact setLastError_eq_some
      "tokenizers_encoding_char_to_token not fully implemented yet" (by decide)
  · intro enc cp sq
    cases enc with
    | none => norm_num [tokenizers_encoding_char_to_word]
    | some e => norm_num [tokenizers_encoding_char_to_word]
  · intro e cp sq
    exact setLastError_eq_some
      "tokenizers_encoding_char_to_word not fully implemented yet" (by decide)

theorem C8_witness :
    (tokenizers_encoding_truncate
        (some ⟨⟨[1], ["a"], [(0, 1)], [0], [1], [0], [none], [some 0]⟩, []⟩) 5 0 1).status ≠ 0 ∧
    (tokenizers_encoding_truncate
        (some ⟨⟨[1], ["a"], [(0, 1)], [0], [1], [0], [none], [some 0]⟩, []⟩) 5 0 1).ret = 0 :=
  ⟨(C8_methods_unimplemented.2.2.2.2.1
      (some ⟨⟨[1], ["a"], [(0, 1)], [0], [1], [0], [none], [some 0]⟩, []⟩) 5 0 1).1,
    (C8_methods_unimplemented.2.2.2.2.1
      (some ⟨⟨[1], ["a"], [(0, 1)], [0], [1], [0], [none], [some 0]⟩, []⟩) 5 0 1).2.1⟩

end CTok

namespace CTok

theorem withOptStr_dropout (upd : BpeBuilder → String → BpeBuilder) (p : CStrPtr)
    (b : BpeBuilder) (h : ∀ b s, (upd b s).dropout = b.dropout) :
    (withOptStr upd p b).dropout = b.dropout := by
  rcases p with _ | d
  · rfl
  · rcases d with s | e
    · simp [withOptStr, CStrData.toStr, h]
    · rfl

theorem assembleBuilder_notUtf8 (vocab : List (String × Nat))
    (merges : List (String × String)) (cc : Nat) (d : Rat) (e1 e2 e3 : String)
    (fu bf : Bool) :
    assembleBuilder vocab merges cc d (some (.notUtf8 e1)) (some (.notUtf8 e2))
        (some (.notUtf8 e3)) fu bf =
      assembleBuilder vocab merges cc d none none none fu bf := by
  simp [assembleBuilder, withOptStr, CStrData.toStr]

theorem bpeCreateFromVocab_notUtf8 (build : BpeBuilder → Except String BPEModel)
    (vocab : List (String × Nat)) (md : CStrData) (cc : Nat) (d : Rat)
    (e1 e2 e3 : String) (fu bf : Bool) (st : ErrSt) :
    bpeCreateFromVocab build vocab md cc d (some (.notUtf8 e1)) (some (.notUtf8 e2))
        (some (.notUtf8 e3)) fu bf st =
      bpeCreateFromVocab build vocab md cc d none none none fu bf st := by
  rcases md with s | e
  · simp only [bpeCreateFromVocab, CStrData.toStr]
    cases hp : parseMerges s with
    | error e => rfl
    | ok merges => dsimp only; rw [assembleBuilder_notUtf8]
  · rfl

/-- C3 (amended): a dropout outside [0.0, 1.0] is silently ignored by
`tokenizers_bpe_create`: the builder's dropout option is left unset and the
call behaves exactly as with the documented "no dropout" sentinel `-1.0`;
no clamping and no `InvalidDropout` rejection happens in the binding. -/
theorem C3_dropout_ignored (d : Rat) (hd : ¬(0 ≤ d ∧ d ≤ 1)) :
    (∀ vocab merges cc unk pre suf fu bf,
      assembleBuilder vocab merges cc d unk pre suf fu bf =
        assembleBuilder vocab merges cc (-1) unk pre suf fu bf ∧
      (assembleBuilder vocab merges cc d unk pre suf fu bf).dropout = none) ∧
    (∀ build vocab md cc unk pre suf fu bf st,
      bpeCreateFromVocab build vocab md cc d unk pre suf fu bf st =
        bpeCreateFromVocab build vocab md cc (-1) unk pre suf fu bf st) := by
  have hd1 : ¬((0 : Rat) ≤ -1 ∧ (-1 : Rat) ≤ 1) := by norm_num
  have hb : ∀ vocab merges cc unk pre suf fu bf,
      assembleBuilder vocab merges cc d unk pre suf fu bf =
        assembleBuilder vocab merges cc (-1) unk pre suf fu bf := by
    intro vocab merges cc unk pre suf fu bf
    simp only [assembleBuilder, if_neg hd, if_neg hd1]
  refine ⟨fun vocab merges cc unk pre suf fu bf => ⟨hb _ _ _ _ _ _ _ _, ?_⟩, ?_⟩
  · simp only [assembleBuilder, if_neg hd]
    rw [withOptStr_dropout (fun b s => { b with eowSuf := some s }) suf _
        (fun _ _ => rfl),
      withOptStr_dropout (fun b s => { b with cswPre := some s }) pre _
        (fun _ _ => rfl),
      withOptStr_dropout (fun b s => { b with unkToken := some s }) unk _
        (fun _ _ => rfl)]
    by_cases hc : 0 < cc <;> simp [hc]
  · intro build vocab md cc unk pre suf fu bf st
    rcases md with s | e
    · simp only [bpeCreateFromVocab, CStrData.toStr]
      cases hp : parseMerges s with
      | error e => rfl
      | ok merges => dsimp only; rw [hb]
    · rfl

/-- C3 counterexample to the claim as stated: with dropout argument 2.0
(outside [0.0, 1.0]) the build succeeds with status 0 and a non-null model
whose dropout is left unconfigured: the out-of-range value is silently
ignored, neither clamped nor rejected. -/
theorem C3_counterexample :
    tokenizers_bpe_create tinyParse bpeBuild (some (.utf8 "v")) (some (.utf8 ""))
        0 2 none none none false false none =
      some ⟨some ⟨tinyBuilder⟩, 0, none⟩ ∧
    tinyBuilder.dropout = none ∧ ¬((0 : Rat) ≤ 2 ∧ (2 : Rat) ≤ 1) := by
  refine ⟨by decide, rfl, by norm_num⟩

/-- Witness for C3 (amended) at dropout 2.0. -/
theorem C3_witness :
    ¬((0 : Rat) ≤ 2 ∧ (2 : Rat) ≤ 1) ∧
    (assembleBuilder [] [] 0 2 none none none false false).dropout = none :=
  ⟨by norm_num,
    ((C3_dropout_ignored 2 (by norm_num)).1 [] [] 0 none none none false false).2⟩

/-- Congruence of `tokenizers_bpe_create` in its three optional string
pointers: calls whose assembled builders agree (for every parsed vocabulary
and merge list) are equal on every path. -/
theorem tokenizers_bpe_create_optEq (pv : String → Except String (List (String × Nat)))
    (build : BpeBuilder → Except String BPEModel) (vj ms : CStrPtr) (cc : Nat)
    (d : Rat) (unk1 pre1 suf1 unk2 pre2 suf2 : CStrPtr) (fu bf : Bool) (st : ErrSt)
    (h : ∀ vocab merges, assembleBuilder vocab merges cc d unk1 pre1 suf1 fu bf =
      assembleBuilder vocab merges cc d unk2 pre2 suf2 fu bf) :
    tokenizers_bpe_create pv build vj ms cc d unk1 pre1 suf1 fu bf st =
      tokenizers_bpe_create pv build vj ms cc d unk2 pre2 suf2 fu bf st := by
  rcases vj with _ | d0
  · rfl
  · rcases d0 with s | e0
    · simp only [tokenizers_bpe_create, Bind.bind, Option.bind, CStrData.toStr]
      cases hp : pv s with
      | error e => rfl
      | ok vocab =>
        rcases ms with _ | md
        · rfl
        · dsimp only
          rcases md with s2 | e2
          · simp only [bpeCreateFromVocab, CStrData.toStr]
            cases hpm : parseMerges s2 with
            | error e => rfl
            | ok merges => dsimp only; rw [h]
          · rfl
    · rfl

/-- C10: an invalid-UTF-8 `unk_token`, `continuing_subword_prefix` or
`end_of_word_suffix` pointer does not fail the build on that account: each
one, independently of the other two arguments, behaves exactly as a null
pointer (the option is silently left unset); with otherwise valid inputs
the call returns a non-null model and status 0, both when one pointer is
invalid beside a valid configured one and when all three are invalid. -/
theorem C10_invalid_utf8_options :
    (∀ pv build vj ms cc d e1 pre suf fu bf st,
      tokenizers_bpe_create pv build vj ms cc d (some (.notUtf8 e1)) pre suf fu bf st =
        tokenizers_bpe_create pv build vj ms cc d none pre suf fu bf st) ∧
    (∀ pv build vj ms cc d unk e2 suf fu bf st,
      tokenizers_bpe_create pv build vj ms cc d unk (some (.notUtf8 e2)) suf fu bf st =
        tokenizers_bpe_create pv build vj ms cc d unk none suf fu bf st) ∧
    (∀ pv build vj ms cc d unk pre e3 fu bf st,
      tokenizers_bpe_create pv build vj ms cc d unk pre (some (.notUtf8 e3)) fu bf st =
        tokenizers_bpe_create pv build vj ms cc d unk pre none fu bf st) ∧
    tokenizers_bpe_create tinyParse bpeBuild (some (.utf8 "v")) (some (.utf8 ""))
        0 (-1) (some (.notUtf8 "bad")) (some (.utf8 "##")) none false false none =
      some ⟨some ⟨{ tinyBuilder with cswPre := some "##" }⟩, 0, none⟩ ∧
    tokenizers_bpe_create tinyParse bpeBuild (some (.utf8 "v")) (some (.utf8 ""))
        0 (-1) (some (.notUtf8 "bad")) (some (.notUtf8 "bad")) (some (.notUtf8 "bad"))
        false false none =
      some ⟨some ⟨tinyBuilder⟩, 0, none⟩ := by
  refine ⟨?_, ?_, ?_, by decide, by decide⟩
  · intro pv build vj ms cc d e1 pre suf fu bf st
    exact tokenizers_bpe_create_optEq pv build vj ms cc d _ _ _ _ _ _ fu bf st
      (fun vocab merges => rfl)
  · intro pv build vj ms cc d unk e2 suf fu bf st
    exact tokenizers_bpe_create_optEq pv build vj ms cc d _ _ _ _ _ _ fu bf st
      (fun vocab merges => rfl)
  · intro pv build vj ms cc d unk pre e3 fu bf st
    exact tokenizers_bpe_create_optEq pv build vj ms cc d _ _ _ _ _ _ fu bf st
      (fun vocab merges => rfl)

end CTok

namespace CTok

/-- C1 counterexample to the claim as stated: the null-pointer status of
`tokenizers_create` is `1`, a positive code, not a documented negative one;
and `tokenizers_bpe_create` has no null check at all on its required
`vocab_json` pointer: it dereferences it (undefined behavior, no defined
result), instead of setting any status. -/
theorem C1_counterexample :
    (tokenizers_create (fun _ => .error "") none none).status = 1 ∧
    ¬((tokenizers_create (fun _ => .error "") none none).status < 0) ∧
    tokenizers_bpe_create (fun _ => .error "") (fun _ => .error "") none
        (some (.utf8 "")) 0 0 none none none false false none = none :=
  ⟨rfl, by decide, rfl⟩

/-- C1 (amended): `tokenizers_create` and `tokenizers_unigram_new` answer a
null required pointer with a nonzero status (positive `1` for the former,
negative `-2` for the latter), a stored message and a null return, without
dereferencing it; `tokenizers_bpe_create` however never null-checks
`vocab_json` or `merges_str` and dereferences them (undefined behavior) —
only its optional string pointers are null-checked. -/
theorem C1_null_handling :
    (∀ fb st, tokenizers_create fb none st =
      ⟨none, 1, some "tokenizers_create received null pointer"⟩) ∧
    (∀ ug unkId bf st,
      tokenizers_unigram_new ug none unkId bf false st =
        ⟨none, some (-2), some "Vocab cannot be null"⟩) ∧
    (∀ pv build ms cc d unk pre suf fu bf st,
      tokenizers_bpe_create pv build none ms cc d unk pre suf fu bf st = none) ∧
    (∀ pv build vs vocab cc d unk pre suf fu bf st,
      pv vs = Except.ok vocab →
      tokenizers_bpe_create pv build (some (.utf8 vs)) none cc d unk pre suf fu bf
        st = none) := by
  refine ⟨fun fb st => rfl, fun ug unkId bf st => rfl, fun _ _ _ _ _ _ _ _ _ _ _ => rfl, ?_⟩
  intro pv build vs vocab cc d unk pre suf fu bf st hpv
  simp only [tokenizers_bpe_create, Bind.bind, Option.bind, CStrData.toStr]
  rw [hpv]

/-- Witness for C1 (amended): with a parser that accepts "v", the call with
a null merges pointer reaches the unchecked dereference. -/
theorem C1_witness :
    tinyParse "v" = Except.ok [("a", 0)] ∧
    tokenizers_bpe_create tinyParse bpeBuild (some (.utf8 "v")) none 0 0 none none
        none false false none = none :=
  ⟨rfl, C1_null_handling.2.2.2 tinyParse bpeBuild "v" [("a", 0)] 0 0 none none none
    false false none rfl⟩

/-- C4: with both required pointers non-null, `tokenizers_bpe_create`
returns null exactly when it sets a nonzero status, and a zero status comes
with a pointer to the successfully built model: no partially constructed
model is ever handed out. -/
theorem C4_no_partial_model :
    ∀ pv build vj md cc d unk pre suf fu bf st,
      ∃ r, tokenizers_bpe_create pv build (some vj) (some md) cc d unk pre suf fu bf
          st = some r ∧
        (r.ret = none ↔ r.status ≠ 0) ∧
        (r.status = 0 → ∃ b m, build b = Except.ok m ∧ r.ret = some m) := by
  intro pv build vj md cc d unk pre suf fu bf st
  rcases vj with s | e
  · simp only [tokenizers_bpe_create, Bind.bind, Option.bind, CStrData.toStr]
    cases hp : pv s with
    | error e =>
      exact ⟨⟨none, -2, setLastError (vocabParseFailMsg e)⟩, rfl, by norm_num,
        fun h => absurd h (by norm_num)⟩
    | ok vocab =>
      dsimp only
      rcases md with ms | me
      · simp only [bpeCreateFromVocab, CStrData.toStr]
        cases hpm : parseMerges ms with
        | error nk =>
          rcases nk with ⟨n, k⟩
          exact ⟨⟨none, -4, setLastError (invalidMergeLineMsg n k)⟩, rfl, by norm_num,
            fun h => absurd h (by norm_num)⟩
        | ok merges =>
          dsimp only
          cases hb : build (assembleBuilder vocab merges cc d unk pre suf fu bf) with
          | ok m =>
            exact ⟨⟨some m, 0, st⟩, rfl, by simp, fun _ => ⟨_, m, hb, rfl⟩⟩
          | error e =>
            exact ⟨⟨none, -5, setLastError (buildFailMsg e)⟩, rfl, by norm_num,
              fun h => absurd h (by norm_num)⟩
      · exact ⟨⟨none, -3, setLastError (invalidMergesStrMsg (CStrData.notUtf8 me).errMsg)⟩,
          rfl, by norm_num, fun h => absurd h (by norm_num)⟩
  · exact ⟨⟨none, -1, setLastError (invalidVocabStrMsg (CStrData.notUtf8 e).errMsg)⟩,
      rfl, by norm_num, fun h => absurd h (by norm_num)⟩

/-- Witness for C4 at a concrete successful build: status 0 with a non-null
fully built model. -/
theorem C4_witness :
    ∃ r, tokenizers_bpe_create tinyParse bpeBuild (some (.utf8 "v")) (some (.utf8 ""))
        0 (-1) none none none false false none = some r ∧
      (r.ret = none ↔ r.status ≠ 0) ∧
      (∃ b m, bpeBuild b = Except.ok m ∧ r.ret = some m) := by
  obtain ⟨r, hr, hiff, hm⟩ := C4_no_partial_model tinyParse bpeBuild (.utf8 "v")
    (.utf8 "") 0 (-1) none none none false false none
  have hc : tokenizers_bpe_create tinyParse bpeBuild (some (.utf8 "v"))
      (some (.utf8 "")) 0 (-1) none none none false false none =
      some ⟨some ⟨tinyBuilder⟩, 0, none⟩ := by decide
  rw [hr] at hc
  have hre : r = ⟨some ⟨tinyBuilder⟩, 0, none⟩ := Option.some.inj hc
  exact ⟨r, hr, hiff, hm (by rw [hre])⟩

end CTok

namespace CTok

theorem selectMerge_no_dropout (m : BPEModel) (h : m.config.dropout = none)
    (syms : List String) (rng : List Bool) :
    selectMerge m syms rng = ((bestCand (candidates m syms)).map (fun c => c.1), rng) := by
  simp [selectMerge, h]

theorem mergeLoop_no_dropout (m : BPEModel) (h : m.config.dropout = none) :
    ∀ (fuel : Nat) (syms : List String) (rng : List Bool),
    mergeLoop m fuel syms rng = ((mergeLoop m fuel syms []).1, rng) := by
  intro fuel
  induction fuel with
  | zero => intro syms rng; rfl
  | succ fuel ih =>
    intro syms rng
    rw [mergeLoop, mergeLoop, selectMerge_no_dropout m h, selectMerge_no_dropout m h]
    cases hb : (bestCand (candidates m syms)).map (fun c => c.1) with
    | none => rfl
    | some i => dsimp only; rw [ih, ih (applyMergeAt m syms i) []]

theorem tokenizeWord_no_dropout (m : BPEModel) (h : m.config.dropout = none)
    (rng : List Bool) (w : String) :
    tokenizeWord m rng w = ((tokenizeWord m [] w).1, rng) := by
  rw [tokenizeWord, tokenizeWord]
  cases hr : resolveSyms m.config (wordSymbols m.config w) with
  | error e => rfl
  | ok syms0 =>
    dsimp only
    rw [mergeLoop_no_dropout m h, mergeLoop_no_dropout m h _ _ []]

theorem encodeWords_no_dropout (m : BPEModel) (h : m.config.dropout = none) :
    ∀ (ws : List String) (rng : List Bool),
    encodeWords m ws rng = ((encodeWords m ws []).1, rng) := by
  intro ws
  induction ws with
  | nil => intro rng; rfl
  | cons w ws ih =>
    intro rng
    rw [encodeWords, encodeWords, tokenizeWord_no_dropout m h,
      tokenizeWord_no_dropout m h []]
    cases ht : (tokenizeWord m [] w).1 with
    | error e => rfl
    | ok pairs =>
      dsimp only
      rw [ih rng]
      rcases he : encodeWords m ws [] with ⟨res, rng0⟩
      cases res with
      | error e => rfl
      | ok rest => rfl

theorem tokenizerEncode_no_dropout (tk : CTokenizer) (h : tk.model.config.dropout = none)
    (rng : List Bool) (primary : String) (second : Option String) :
    tokenizerEncode tk rng primary second =
      ((tokenizerEncode tk [] primary second).1, rng) := by
  rw [tokenizerEncode, tokenizerEncode, encodeWords_no_dropout tk.model h,
    encodeWords_no_dropout tk.model h _ []]

/-- C6: with dropout disabled and a fixed tokenizer, two calls of
`tokenizers_encode` on the same non-null sequence (same pair argument, same
`add_special_tokens`) set the same status, write the same length, and
produce encodings with identical token-id sequences, whatever the incoming
error-cell states and randomness streams. -/
theorem C6_encode_deterministic (tk : CTokenizer) (h : tk.model.config.dropout = none)
    (seqd : CStrData) (pairSeq : CStrPtr) (ast : Bool) (st1 st2 : ErrSt)
    (rng1 rng2 : List Bool) :
    (tokenizers_encode (some tk) (some seqd) pairSeq ast st1 rng1).status =
      (tokenizers_encode (some tk) (some seqd) pairSeq ast st2 rng2).status ∧
    (tokenizers_encode (some tk) (some seqd) pairSeq ast st1 rng1).lenWritten =
      (tokenizers_encode (some tk) (some seqd) pairSeq ast st2 rng2).lenWritten ∧
    ((tokenizers_encode (some tk) (some seqd) pairSeq ast st1 rng1).ret.map
        (fun e => e.ids)) =
      ((tokenizers_encode (some tk) (some seqd) pairSeq ast st2 rng2).ret.map
        (fun e => e.ids)) := by
  rcases seqd with s | e
  · simp only [tokenizers_encode, CStrData.toStr]
    rcases pairSeq with _ | pd
    · rw [tokenizerEncode_no_dropout tk h rng1, tokenizerEncode_no_dropout tk h rng2]
      cases hx : (tokenizerEncode tk [] s none).1 with
      | error e => exact ⟨rfl, rfl, rfl⟩
      | ok pairs => exact ⟨rfl, rfl, rfl⟩
    · rcases pd with s2 | e2
      · dsimp only
        rw [tokenizerEncode_no_dropout tk h rng1, tokenizerEncode_no_dropout tk h rng2]
        cases hx : (tokenizerEncode tk [] s (some s2)).1 with
        | error e => exact ⟨rfl, rfl, rfl⟩
        | ok pairs => exact ⟨rfl, rfl, rfl⟩
      · exact ⟨rfl, rfl, rfl⟩
  · exact ⟨rfl, rfl, rfl⟩

/-- Witness for C6: the same call with two different randomness streams. -/
theorem C6_witness :
    (⟨⟨tinyBuilder⟩⟩ : CTokenizer).model.config.dropout = none ∧
    ((tokenizers_encode (some ⟨⟨tinyBuilder⟩⟩) (some (.utf8 "a")) none true none
        [true]).status =
      (tokenizers_encode (some ⟨⟨tinyBuilder⟩⟩) (some (.utf8 "a")) none true none
        []).status) ∧
    ((tokenizers_encode (some ⟨⟨tinyBuilder⟩⟩) (some (.utf8 "a")) none true none
        [true]).ret.map (fun e => e.ids)) =
      ((tokenizers_encode (some ⟨⟨tinyBuilder⟩⟩) (some (.utf8 "a")) none true none
        []).ret.map (fun e => e.ids)) :=
  ⟨rfl,
    (C6_encode_deterministic ⟨⟨tinyBuilder⟩⟩ rfl (.utf8 "a") none true none none
      [true] []).1,
    (C6_encode_deterministic ⟨⟨tinyBuilder⟩⟩ rfl (.utf8 "a") none true none none
      [true] []).2.2⟩

end CTok

namespace CTok

theorem setLastError_isSome (m : String) (h : hasNulChar m = false) :
    (setLastError m).isSome = true := by simp [setLastError, h]

theorem readVocabItems_error_isSome :
    ∀ (items : List VocabItem) (r : UnigramResult),
    readVocabItems items = Except.error r → r.err.isSome = true := by
  intro items
  induction items with
  | nil => intro r hr; simp [readVocabItems] at hr
  | cons item rest ih =>
    intro r hr
    rcases item with ⟨tok, score⟩
    rcases tok with _ | d
    · simp only [readVocabItems] at hr
      rw [Except.error.injEq] at hr
      subst hr
      exact setLastError_isSome "Vocab item token cannot be null" (by decide)
    · rcases d with s | e
      · simp only [readVocabItems, CStrData.toStr] at hr
        cases hrest : readVocabItems rest with
        | error r0 =>
          rw [hrest] at hr
          simp only [Except.map] at hr
          rw [Except.error.injEq] at hr
          subst hr
          exact ih r0 hrest
        | ok v =>
          rw [hrest] at hr
          simp [Except.map] at hr
      · simp only [readVocabItems, CStrData.toStr] at hr
        rw [Except.error.injEq] at hr
        subst hr
        exact setLastError_isSome "Invalid UTF-8 in vocab item token" (by decide)

/-- C5 counterexample to the claim as stated: on a fresh thread (empty
error cell) a call of `tokenizers_whitespace_split_pre_tokenize_str` with a
null pre-tokenizer pointer returns with failure status `-1`, yet
`tokenizers_get_last_error` still returns null: no message was recorded. -/
theorem C5_counterexample :
    (tokenizers_whitespace_split_pre_tokenize_str (fun _ => .ok []) none
        (some (.utf8 "x")) none 0 false none).status = some (-1) ∧
    tokenizers_get_last_error
        (tokenizers_whitespace_split_pre_tokenize_str (fun _ => .ok []) none
          (some (.utf8 "x")) none 0 false none).err = none :=
  ⟨rfl, rfl⟩

/-- C5 (amended): the lib.rs and models functions record a message on each
failure path, so after such a failure `tokenizers_get_last_error` is
non-null whenever the interpolated external error text is NUL-free; the
pre_tokenizers functions however never touch the error cell, so a failure
status from them leaves no retrievable message on a fresh thread. -/
theorem C5_error_messages :
    (∀ split preTok input out olen stN st,
      (tokenizers_whitespace_split_pre_tokenize_str split preTok input out olen stN
        st).err = st) ∧
    (∀ fb json st, errTextsNulFree fb →
      (tokenizers_create fb json st).status ≠ 0 →
      ((tokenizers_create fb json st).err).isSome = true) ∧
    (∀ ug vocab unkId bf st,
      (∀ v u b e, ug v u b = Except.error e → hasNulChar e = false) →
      (tokenizers_unigram_new ug vocab unkId bf false st).status ≠ some 0 →
      ((tokenizers_unigram_new ug vocab unkId bf false st).err).isSome = true) ∧
    (∀ pv build vj md cc d unk pre suf fu bf st r,
      errTextsNulFree pv → errTextsNulFree build → ptrNulFree vj → ptrNulFree md →
      tokenizers_bpe_create pv build vj md cc d unk pre suf fu bf st = some r →
      r.status ≠ 0 → r.err.isSome = true) := by
  refine ⟨?_, ?_, ?_, ?_⟩
  · intro sp preTok input out olen stN st
    rw [tokenizers_whitespace_split_pre_tokenize_str.eq_def]
    repeat' first | rfl | split
    all_goals
      rename_i splits heq outp buf
      by_cases hc : olen < (strBytes (wsSplitJson splits)).length + 1 <;> simp [hc]
  · intro fb json st hf hstat
    rcases json with _ | d
    · exact setLastError_isSome "tokenizers_create received null pointer" (by decide)
    · rcases d with s | e
      · cases hb : fb s with
        | ok tk => simp [tokenizers_create, CStrData.toStr, hb] at hstat
        | error e =>
          simp only [tokenizers_create, CStrData.toStr, hb]
          exact setLastError_isSome ("tokenizers_create failed: " ++ e)
            (by rw [hasNulChar_append, hf s e hb]; decide)
      · exact setLastError_isSome "tokenizers_create could not decode JSON string"
          (by decide)
  · intro ug vocab unkId bf st hf hstat
    rcases vocab with _ | items
    · exact setLastError_isSome "Vocab cannot be null" (by decide)
    · simp only [tokenizers_unigram_new, Bool.false_eq_true, reduceIte]
        at hstat ⊢
      by_cases hlen : items.length = 0
      · rw [if_pos hlen]
        exact setLastError_isSome "Vocab cannot be empty" (by decide)
      · rw [if_neg hlen] at hstat ⊢
        cases hri : readVocabItems items with
        | error r0 => exact readVocabItems_error_isSome items r0 hri
        | ok vv =>
          rw [hri] at hstat
          dsimp only at hstat ⊢
          cases hu : ug vv unkId bf with
          | ok m => rw [hu] at hstat; exact absurd rfl hstat
          | error e =>
            exact setLastError_isSome ("Failed to create Unigram model: " ++ e)
              (by rw [hasNulChar_append, hf vv unkId bf e hu]; decide)
  · intro pv build vj md cc d unk pre suf fu bf st r hpv hbuild hvj hmd hsome hstat
    rcases vj with _ | d0
    · exact absurd hsome (by simp [tokenizers_bpe_create])
    · rcases d0 with s | e0
      · simp only [tokenizers_bpe_create, Bind.bind, Option.bind, CStrData.toStr]
          at hsome
        cases hp : pv s with
        | error e =>
          rw [hp] at hsome
          obtain rfl := (Option.some.inj hsome).symm
          exact setLastError_isSome (vocabParseFailMsg e)
            (by rw [vocabParseFailMsg, hasNulChar_append, hpv s e hp]; decide)
        | ok vocab =>
          rw [hp] at hsome
          rcases md with _ | md0
          · simp at hsome
          · dsimp only at hsome
            obtain rfl := (Option.some.inj hsome).symm
            rcases md0 with ms | me
            · simp only [bpeCreateFromVocab, CStrData.toStr] at hstat ⊢
              cases hpm : parseMerges ms with
              | error nk =>
                rcases nk with ⟨n, k⟩
                exact setLastError_isSome (invalidMergeLineMsg n k)
                  (hasNul_invalidMergeLineMsg n k)
              | ok merges =>
                rw [hpm] at hstat
                dsimp only at hstat ⊢
                cases hb : build (assembleBuilder vocab merges cc d unk pre suf fu bf) with
                | ok m => rw [hb] at hstat; exact absurd rfl hstat
                | error e =>
                  exact setLastError_isSome (buildFailMsg e)
                    (by rw [buildFailMsg, hasNulChar_append, hbuild _ e hb]; decide)
            · exact setLastError_isSome (invalidMergesStrMsg me)
                (by rw [invalidMergesStrMsg, hasNulChar_append, hmd me rfl]; decide)
      · simp only [tokenizers_bpe_create, Bind.bind, Option.bind, CStrData.toStr]
          at hsome
        obtain rfl := (Option.some.inj hsome).symm
        exact setLastError_isSome (invalidVocabStrMsg e0)
          (by rw [invalidVocabStrMsg, hasNulChar_append, hvj e0 rfl]; decide)

/-- Witness for C5 (amended) at concrete failing calls: a failing
`tokenizers_create` leaves a retrievable message; the failing pre-tokenizer
call leaves the fresh error cell empty. -/
theorem C5_witness :
    ((tokenizers_create (fun _ => Except.error "boom") (some (.utf8 "cfg"))
        none).err).isSome = true ∧
    (tokenizers_whitespace_split_pre_tokenize_str (fun _ => .ok []) none
        (some (.utf8 "x")) none 0 false none).err = none :=
  ⟨C5_error_messages.2.1 (fun _ => Except.error "boom") (some (.utf8 "cfg")) none
      (fun _ e he => by rw [Except.error.injEq] at he; subst he; decide)
      (by decide),
    C5_error_messages.1 (fun _ => .ok []) none (some (.utf8 "x")) none 0 false none⟩

end CTok
